import Mathlib

/-!
Verification of the axis-break mechanism of the amcharts4 repository,
centred on `src/src/.internal/charts/axes/DateAxisBreak.ts`.

The visible source is the date specialization `DateAxisBreak`.  Its base
classes (`ValueAxisBreak`/`AxisBreak`, the property-object attribute
storage behind `setPropertyValue`/`getPropertyValue`), the axis
invalidation machinery, and the numeric-break / break-set contracts are
not part of the visible source; where a claim depends on them they are
modelled from the specification, with a doc comment saying so.
-/

/-- A calendar date, identified by its numeric time value (`getTime()`).
Dates compare by value. -/
structure JsDate where
  time : Int
deriving DecidableEq, Repr

/-- The `getTime()` method of a date: its numeric time value
(the `toNumeric` direction of the date conversion collaborator). -/
def JsDate.getTime (d : JsDate) : Int := d.time

/-- The `fromNumeric` direction of the date conversion collaborator:
the date whose time value is `t`. -/
def dateFromTime (t : Int) : JsDate := ⟨t⟩

/-- A tick interval (`ITimeInterval`): a time unit and a count. -/
structure TimeInterval where
  timeUnit : String
  count : Int
deriving DecidableEq, Repr

/-- Modelled from the spec: the axis collaborator of a break.  The axis
exposes `invalidate()` (layout invalidation) and `invalidateSeries()`
(series invalidation); both are idempotent mark-dirty operations whose
repeated calls within one render cycle collapse to a single
re-validation pass.  `invalidateCount`/`invalidateSeriesCount` record
how many times each was called; `layoutDirty`/`seriesDirty` are the
dirty flags an axis validation pass consumes. -/
structure AxisState where
  invalidateCount : Nat
  invalidateSeriesCount : Nat
  layoutDirty : Bool
  seriesDirty : Bool
deriving DecidableEq, Repr

/-- Modelled from the spec: `axis.invalidate()` marks the axis layout
dirty (idempotent flag) and is recorded as one more call. -/
def AxisState.invalidate (a : AxisState) : AxisState :=
  { a with invalidateCount := a.invalidateCount + 1, layoutDirty := true }

/-- Modelled from the spec: `axis.invalidateSeries()` marks the series
of the axis dirty (idempotent flag) and is recorded as one more call. -/
def AxisState.invalidateSeries (a : AxisState) : AxisState :=
  { a with invalidateSeriesCount := a.invalidateSeriesCount + 1, seriesDirty := true }

/-- Modelled from the spec: the validation pass of a render cycle pulls
and clears the dirty flags; each flag pending at the start of the pass
is observed exactly once.  Returns (layout signals observed, series
signals observed, axis with flags cleared). -/
def AxisState.consume (a : AxisState) : Nat × Nat × AxisState :=
  ((if a.layoutDirty then 1 else 0),
   (if a.seriesDirty then 1 else 0),
   { a with layoutDirty := false, seriesDirty := false })

/-- State of a `DateAxisBreak`.  `startDateProp`/`endDateProp` are the
values held in the property store under the keys "startDate"/"endDate"
(read by `getPropertyValue`, written by `setPropertyValue`);
`startValue`/`endValue` are the numeric bounds inherited from the value
break; `gridInterval`/`gridDate` are the cached tick fields; `axis` is
the non-owning back-reference to the owning axis (`none` when the break
is not attached). -/
structure DateAxisBreak where
  startDateProp : Option JsDate
  endDateProp : Option JsDate
  startValue : Option Int
  endValue : Option Int
  gridInterval : Option TimeInterval
  gridDate : Option JsDate
  axis : Option AxisState
deriving DecidableEq, Repr

/-- Modelled from the spec: the attribute storage of the property-object
base.  `setPropertyValue` stores the new value and reports whether it
differs from the previously stored one; dates compare by value.
Returns (changed, new stored value). -/
def setPropertyValueDate (stored : Option JsDate) (value : JsDate) :
    Bool × Option JsDate :=
  if stored = some value then (false, stored) else (true, some value)

/-- A fresh `DateAxisBreak` as produced by the constructor: no bounds
fixed, no cached tick fields, with an optional axis back-reference. -/
def DateAxisBreak.new (ax : Option AxisState) : DateAxisBreak :=
  { startDateProp := none, endDateProp := none,
    startValue := none, endValue := none,
    gridInterval := none, gridDate := none, axis := ax }

/-- The `startDate` setter of `DateAxisBreak`
(src/src/.internal/charts/axes/DateAxisBreak.ts, lines 143-151):
`if (this.setPropertyValue("startDate", value)) { this.startValue =
value.getTime(); if (this.axis) { this.axis.invalidate();
this.axis.invalidateSeries(); } }`. -/
def DateAxisBreak.setStartDate (b : DateAxisBreak) (value : JsDate) : DateAxisBreak :=
  match setPropertyValueDate b.startDateProp value with
  | (true, stored) =>
      let b1 := { b with startDateProp := stored, startValue := some value.getTime }
      match b1.axis with
      | some a => { b1 with axis := some ((a.invalidate).invalidateSeries) }
      | none => b1
  | (false, _) => b

/-- The `endDate` setter of `DateAxisBreak`
(src/src/.internal/charts/axes/DateAxisBreak.ts, lines 165-173):
symmetric to the `startDate` setter. -/
def DateAxisBreak.setEndDate (b : DateAxisBreak) (value : JsDate) : DateAxisBreak :=
  match setPropertyValueDate b.endDateProp value with
  | (true, stored) =>
      let b1 := { b with endDateProp := stored, endValue := some value.getTime }
      match b1.axis with
      | some a => { b1 with axis := some ((a.invalidate).invalidateSeries) }
      | none => b1
  | (false, _) => b

/-- The `startDate` getter: `return this.getPropertyValue("startDate")`. -/
def DateAxisBreak.startDate (b : DateAxisBreak) : Option JsDate :=
  b.startDateProp

/-- The `endDate` getter: `return this.getPropertyValue("endDate")`. -/
def DateAxisBreak.endDate (b : DateAxisBreak) : Option JsDate :=
  b.endDateProp

/-- A mutation of a `DateAxisBreak` through one of its date setters. -/
inductive BreakOp where
  | setStart (d : JsDate)
  | setEnd (d : JsDate)
deriving DecidableEq, Repr

/-- Apply one date-setter mutation. -/
def DateAxisBreak.applyOp (b : DateAxisBreak) (op : BreakOp) : DateAxisBreak :=
  match op with
  | .setStart d => b.setStartDate d
  | .setEnd d => b.setEndDate d

/-- Apply a sequence of date-setter mutations, oldest first. -/
def DateAxisBreak.applyOps (b : DateAxisBreak) (ops : List BreakOp) : DateAxisBreak :=
  ops.foldl DateAxisBreak.applyOp b

/-- The calendar view and the numeric view of each bound agree: the
stored date (if any) has exactly the stored numeric time value. -/
def DateAxisBreak.consistent (b : DateAxisBreak) : Prop :=
  b.startDateProp.map JsDate.getTime = b.startValue ∧
  b.endDateProp.map JsDate.getTime = b.endValue

instance (b : DateAxisBreak) : Decidable b.consistent := by
  unfold DateAxisBreak.consistent; infer_instance

/-- The error taxonomy of the break subsystem. -/
inductive BreakError where
  | invalidRange
  | overlap
  | notFound
deriving DecidableEq, Repr

/-- Modelled from the spec: the numeric break base (not under the
visible source).  `startValue`/`endValue` are the bounds in the axis's
native numeric domain and `breakSize` the fraction of the excised
range's visual width retained. -/
structure NumericBreak where
  startValue : ℚ
  endValue : ℚ
  breakSize : ℚ
deriving DecidableEq, Repr

/-- Modelled from the spec: `setRange(start, end)` fails with
`InvalidRangeError` if `start >= end`; on success it updates the
bounds. -/
def NumericBreak.setRange (b : NumericBreak) (s e : ℚ) :
    Except BreakError NumericBreak :=
  if s < e then .ok { b with startValue := s, endValue := e }
  else .error .invalidRange

/-- Modelled from the spec: `mapValue(raw)` — values below `startValue`
pass through unchanged, values at or above `endValue` are shifted left
by `(endValue - startValue) * (1 - breakSize)`, values inside the break
are linearly compressed between the two boundary offsets. -/
def NumericBreak.mapValue (b : NumericBreak) (raw : ℚ) : ℚ :=
  if raw < b.startValue then raw
  else if b.endValue ≤ raw then
    raw - (b.endValue - b.startValue) * (1 - b.breakSize)
  else
    b.startValue + (raw - b.startValue) * b.breakSize

/-- Ordering of breaks by `startValue`, used by the break set. -/
def brkLE (a b : NumericBreak) : Prop := a.startValue ≤ b.startValue

instance : DecidableRel brkLE := fun a b =>
  inferInstanceAs (Decidable (a.startValue ≤ b.startValue))

instance : IsTotal NumericBreak brkLE :=
  ⟨fun a b => le_total a.startValue b.startValue⟩

instance : IsTrans NumericBreak brkLE :=
  ⟨fun _ _ _ h1 h2 => le_trans h1 h2⟩

/-- Two breaks overlap when their `[startValue, endValue)` intervals
intersect. -/
def breaksOverlap (a b : NumericBreak) : Bool :=
  decide (a.startValue < b.endValue ∧ b.startValue < a.endValue)

/-- Modelled from the spec: the `BreakSet` owned by an axis — the
ordered collection of breaks, ordered by `startValue` ascending. -/
structure BreakSet where
  breaks : List NumericBreak
deriving DecidableEq, Repr

/-- Modelled from the spec: `add(break)` fails with `OverlapError` if
the new break's `[startValue, endValue)` interval overlaps any existing
break in the set, leaving the set unchanged; on success it inserts in
sorted order by `startValue`.  Returns (error if any, resulting set). -/
def BreakSet.add (s : BreakSet) (b : NumericBreak) :
    Option BreakError × BreakSet :=
  if s.breaks.any (fun c => breaksOverlap c b) then
    (some .overlap, s)
  else
    (none, ⟨List.orderedInsert brkLE b s.breaks⟩)

/-- A concrete break state used to exercise the date setters: bounds
[0, 10], consistent date and numeric views, no axis attached. -/
def exBreakNoAxis : DateAxisBreak :=
  { startDateProp := some ⟨0⟩, endDateProp := some ⟨10⟩,
    startValue := some 0, endValue := some 10,
    gridInterval := none, gridDate := none, axis := none }

/-- A fresh axis state with clean dirty flags and zero call counts. -/
def exAxis : AxisState :=
  { invalidateCount := 0, invalidateSeriesCount := 0,
    layoutDirty := false, seriesDirty := false }

/-- The same concrete break state with a clean axis attached. -/
def exBreakWithAxis : DateAxisBreak :=
  { exBreakNoAxis with axis := some exAxis }

/-- A concrete break set holding the single break [0, 5). -/
def exSet : BreakSet := ⟨[⟨0, 5, 0⟩]⟩

/-- Preservation lemma: one date-setter mutation keeps the calendar and
numeric views of both bounds in agreement. -/
theorem consistent_applyOp (b : DateAxisBreak) (op : BreakOp)
    (h : b.consistent) : (b.applyOp op).consistent := by
  rcases h with ⟨h1, h2⟩
  cases op with
  | setStart d =>
      by_cases hch : b.startDateProp = some d
      · have h1' : some d.getTime = b.startValue := by
          rw [← h1, hch]; rfl
        simp [DateAxisBreak.applyOp, DateAxisBreak.setStartDate,
          setPropertyValueDate, hch, DateAxisBreak.consistent, h1', h2]
      · cases hax : b.axis <;>
          simp [DateAxisBreak.applyOp, DateAxisBreak.setStartDate,
            setPropertyValueDate, hch, hax, DateAxisBreak.consistent, h1, h2]
  | setEnd d =>
      by_cases hch : b.endDateProp = some d
      · have h2' : some d.getTime = b.endValue := by
          rw [← h2, hch]; rfl
        simp [DateAxisBreak.applyOp, DateAxisBreak.setEndDate,
          setPropertyValueDate, hch, DateAxisBreak.consistent, h1, h2']
      · cases hax : b.axis <;>
          simp [DateAxisBreak.applyOp, DateAxisBreak.setEndDate,
            setPropertyValueDate, hch, hax, DateAxisBreak.consistent, h1, h2]

/-- Preservation lemma: the setters never touch `gridInterval`,
`gridDate`, or the opposite bound. -/
theorem applyOp_preserves_grid (b : DateAxisBreak) (op : BreakOp) :
    (b.applyOp op).gridInterval = b.gridInterval ∧
    (b.applyOp op).gridDate = b.gridDate := by
  cases op with
  | setStart d =>
      by_cases hch : b.startDateProp = some d
      · simp [DateAxisBreak.applyOp, DateAxisBreak.setStartDate,
          setPropertyValueDate, hch]
      · cases hax : b.axis <;>
          simp [DateAxisBreak.applyOp, DateAxisBreak.setStartDate,
            setPropertyValueDate, hch, hax]
  | setEnd d =>
      by_cases hch : b.endDateProp = some d
      · simp [DateAxisBreak.applyOp, DateAxisBreak.setEndDate,
          setPropertyValueDate, hch]
      · cases hax : b.axis <;>
          simp [DateAxisBreak.applyOp, DateAxisBreak.setEndDate,
            setPropertyValueDate, hch, hax]

/-- C1 counterexample: with stored bounds [0, 10], setting `startDate`
to the date with time value 20 — at or after the current `endValue` —
does not fail and does not leave the prior state unchanged: the stored
`startDate` and `startValue` are overwritten. -/
theorem c1_counterexample :
    (exBreakNoAxis.setStartDate ⟨20⟩).startValue = some 20 ∧
    (exBreakNoAxis.setStartDate ⟨20⟩).startDateProp = some ⟨20⟩ ∧
    (exBreakNoAxis.setStartDate ⟨20⟩).endValue = some 10 ∧
    exBreakNoAxis.startValue = some 0 := by decide

/-- C1 amended: the `startDate`/`endDate` setters perform no range
validation.  Setting `startDate` to a date at or after the current
`endValue` succeeds: it stores the new date, sets `startValue` to its
time value, and leaves the opposite bound unchanged (symmetrically for
`endDate` against `startValue`); no `InvalidRangeError` is raised. -/
theorem c1_amended_no_validation (b : DateAxisBreak) (d : JsDate) :
    (∀ e : Int, b.endValue = some e → e ≤ d.getTime →
      b.startDateProp ≠ some d →
      (b.setStartDate d).startValue = some d.getTime ∧
      (b.setStartDate d).startDateProp = some d ∧
      (b.setStartDate d).endValue = b.endValue ∧
      (b.setStartDate d).endDateProp = b.endDateProp) ∧
    (∀ s : Int, b.startValue = some s → d.getTime ≤ s →
      b.endDateProp ≠ some d →
      (b.setEndDate d).endValue = some d.getTime ∧
      (b.setEndDate d).endDateProp = some d ∧
      (b.setEndDate d).startValue = b.startValue ∧
      (b.setEndDate d).startDateProp = b.startDateProp) := by
  constructor
  · intro e _ _ hch
    cases hax : b.axis <;>
      simp [DateAxisBreak.setStartDate, setPropertyValueDate, hch, hax]
  · intro s _ _ hch
    cases hax : b.axis <;>
      simp [DateAxisBreak.setEndDate, setPropertyValueDate, hch, hax]

/-- Witness for the amended C1 at concrete inputs: start is pushed past
the end bound (and symmetrically) without any failure. -/
theorem c1_amended_witness :
    (exBreakNoAxis.setStartDate ⟨20⟩).startValue = some 20 ∧
    (exBreakNoAxis.setStartDate ⟨20⟩).endValue = some 10 ∧
    (exBreakNoAxis.setEndDate ⟨-5⟩).endValue = some (-5) ∧
    (exBreakNoAxis.setEndDate ⟨-5⟩).startValue = some 0 := by
  have h1 := (c1_amended_no_validation exBreakNoAxis ⟨20⟩).1 10 rfl
    (by decide) (by decide)
  have h2 := (c1_amended_no_validation exBreakNoAxis ⟨-5⟩).2 0 rfl
    (by decide) (by decide)
  exact ⟨h1.1, h1.2.2.1, h2.1, h2.2.2.1 ▸ rfl⟩

/-- C2: on an attached break, any date-setter call that changes the
stored date requests both kinds of invalidation on the axis — a layout
invalidation (`axis.invalidate`) followed by a series invalidation
(`axis.invalidateSeries`). -/
theorem c2_both_invalidations (b : DateAxisBreak) (d : JsDate)
    (a : AxisState) (ha : b.axis = some a) :
    (b.startDateProp ≠ some d →
      (b.setStartDate d).axis = some ((a.invalidate).invalidateSeries)) ∧
    (b.endDateProp ≠ some d →
      (b.setEndDate d).axis = some ((a.invalidate).invalidateSeries)) := by
  constructor
  · intro hch
    simp [DateAxisBreak.setStartDate, setPropertyValueDate, hch, ha]
  · intro hch
    simp [DateAxisBreak.setEndDate, setPropertyValueDate, hch, ha]

/-- Witness for C2 at a concrete attached break: after a changing
`endDate` write, both call counters on the axis have advanced and both
dirty flags are set. -/
theorem c2_witness :
    (exBreakWithAxis.setEndDate ⟨7⟩).axis =
      some ((exAxis.invalidate).invalidateSeries) ∧
    ((exAxis.invalidate).invalidateSeries).invalidateCount = 1 ∧
    ((exAxis.invalidate).invalidateSeries).invalidateSeriesCount = 1 := by
  refine ⟨(c2_both_invalidations exBreakWithAxis ⟨7⟩ exAxis rfl).2 (by decide),
    by decide, by decide⟩

/-- C3: two successive changing `endDate` mutations of an attached
break before the axis consumes its signals coalesce — the validation
pass of the render cycle observes exactly one layout-invalidation
signal and exactly one series-invalidation signal. -/
theorem c3_coalesced_signals (b : DateAxisBreak) (a : AxisState)
    (d1 d2 : JsDate) (ha : b.axis = some a)
    (hl : a.layoutDirty = false) (hs : a.seriesDirty = false)
    (h1 : b.endDateProp ≠ some d1) (h2 : d2 ≠ d1) :
    ∃ a2 : AxisState,
      ((b.setEndDate d1).setEndDate d2).axis = some a2 ∧
      a2.consume.1 = 1 ∧
      a2.consume.2.1 = 1 := by
  have h2' : (some d1 : Option JsDate) ≠ some d2 := by
    simp [Ne.symm h2]
  refine ⟨(((a.invalidate).invalidateSeries).invalidate).invalidateSeries,
    ?_, ?_, ?_⟩
  · simp [DateAxisBreak.setEndDate, setPropertyValueDate, h1, h2', ha]
  · simp [AxisState.consume, AxisState.invalidate, AxisState.invalidateSeries]
  · simp [AxisState.consume, AxisState.invalidate, AxisState.invalidateSeries]

/-- Witness for C3 at a concrete attached break: two back-to-back
`endDate` writes, then the axis validation pass observes one signal of
each kind. -/
theorem c3_witness :
    ∃ a2 : AxisState,
      ((exBreakWithAxis.setEndDate ⟨7⟩).setEndDate ⟨8⟩).axis = some a2 ∧
      a2.consume.1 = 1 ∧
      a2.consume.2.1 = 1 :=
  c3_coalesced_signals exBreakWithAxis exAxis ⟨7⟩ ⟨8⟩ rfl rfl rfl
    (by decide) (by decide)

/-- C4: after any sequence of `startDate`/`endDate` mutations of a
break whose views agree, reading `startDate` (resp. `endDate`) returns
a date whose time value is exactly the stored `startValue` (resp.
`endValue`) — the calendar and numeric views never disagree. -/
theorem c4_views_agree (b : DateAxisBreak) (ops : List BreakOp)
    (h : b.consistent) :
    ((b.applyOps ops).startDate).map JsDate.getTime = (b.applyOps ops).startValue ∧
    ((b.applyOps ops).endDate).map JsDate.getTime = (b.applyOps ops).endValue := by
  have key : (b.applyOps ops).consistent := by
    unfold DateAxisBreak.applyOps
    induction ops generalizing b with
    | nil => exact h
    | cons op rest ih =>
        exact ih (b.applyOp op) (consistent_applyOp b op h)
  exact ⟨key.1, key.2⟩

/-- Witness for C4 at a concrete break and mutation sequence. -/
theorem c4_witness :
    ((exBreakWithAxis.applyOps
        [BreakOp.setStart ⟨3⟩, BreakOp.setEnd ⟨12⟩]).startDate).map JsDate.getTime
      = (exBreakWithAxis.applyOps
        [BreakOp.setStart ⟨3⟩, BreakOp.setEnd ⟨12⟩]).startValue ∧
    ((exBreakWithAxis.applyOps
        [BreakOp.setStart ⟨3⟩, BreakOp.setEnd ⟨12⟩]).endDate).map JsDate.getTime
      = (exBreakWithAxis.applyOps
        [BreakOp.setStart ⟨3⟩, BreakOp.setEnd ⟨12⟩]).endValue :=
  c4_views_agree exBreakWithAxis
    [BreakOp.setStart ⟨3⟩, BreakOp.setEnd ⟨12⟩] (by decide)

/-- C5: with no axis attached, the date setters still succeed — the
stored date becomes the written value and, when the write is a change,
the numeric bound is updated to its time value — while the break keeps
having no axis, so no invalidation is requested anywhere. -/
theorem c5_no_axis_mutation_succeeds (b : DateAxisBreak) (d : JsDate)
    (ha : b.axis = none) :
    (b.setStartDate d).axis = none ∧
    (b.setStartDate d).startDateProp = some d ∧
    (b.startDateProp ≠ some d →
      (b.setStartDate d).startValue = some d.getTime) ∧
    (b.setEndDate d).axis = none ∧
    (b.setEndDate d).endDateProp = some d ∧
    (b.endDateProp ≠ some d →
      (b.setEndDate d).endValue = some d.getTime) := by
  by_cases hch : b.startDateProp = some d <;>
    by_cases hch2 : b.endDateProp = some d <;>
      simp [DateAxisBreak.setStartDate, DateAxisBreak.setEndDate,
        setPropertyValueDate, hch, hch2, ha]

/-- Witness for C5 at a concrete detached break. -/
theorem c5_witness :
    (exBreakNoAxis.setStartDate ⟨3⟩).axis = none ∧
    (exBreakNoAxis.setStartDate ⟨3⟩).startDateProp = some ⟨3⟩ ∧
    (exBreakNoAxis.setStartDate ⟨3⟩).startValue = some 3 := by
  have h := c5_no_axis_mutation_succeeds exBreakNoAxis ⟨3⟩ rfl
  exact ⟨h.1, h.2.1, h.2.2.1 (by decide)⟩

/-- C6: the date setters leave `gridInterval`, `gridDate` and the
opposite bound untouched — and over any mutation sequence the break
never computes the grid fields itself, preserving whatever was last
assigned. -/
theorem c6_grid_and_opposite_preserved (b : DateAxisBreak) (d : JsDate) :
    (b.setStartDate d).gridInterval = b.gridInterval ∧
    (b.setStartDate d).gridDate = b.gridDate ∧
    (b.setStartDate d).endDateProp = b.endDateProp ∧
    (b.setStartDate d).endValue = b.endValue ∧
    (b.setEndDate d).gridInterval = b.gridInterval ∧
    (b.setEndDate d).gridDate = b.gridDate ∧
    (b.setEndDate d).startDateProp = b.startDateProp ∧
    (b.setEndDate d).startValue = b.startValue ∧
    ∀ ops : List BreakOp,
      (b.applyOps ops).gridInterval = b.gridInterval ∧
      (b.applyOps ops).gridDate = b.gridDate := by
  refine ⟨?_, ?_, ?_, ?_, ?_, ?_, ?_, ?_, ?_⟩
  all_goals
    first
    | (by_cases hch : b.startDateProp = some d
       · simp [DateAxisBreak.setStartDate, setPropertyValueDate, hch]
       · cases hax : b.axis <;>
           simp [DateAxisBreak.setStartDate, setPropertyValueDate, hch, hax])
    | skip
  all_goals
    first
    | (by_cases hch : b.endDateProp = some d
       · simp [DateAxisBreak.setEndDate, setPropertyValueDate, hch]
       · cases hax : b.axis <;>
           simp [DateAxisBreak.setEndDate, setPropertyValueDate, hch, hax])
    | skip
  intro ops
  unfold DateAxisBreak.applyOps
  induction ops generalizing b with
  | nil => exact ⟨rfl, rfl⟩
  | cons op rest ih =>
      have hstep := applyOp_preserves_grid b op
      have hrest := ih (b.applyOp op)
      exact ⟨by rw [List.foldl_cons, hrest.1, hstep.1],
             by rw [List.foldl_cons, hrest.2, hstep.2]⟩

/-- C7: round-trip of the date conversion — the stored numeric bound is
`getTime` of the written date and reading the property back yields a
date equal to the input: `fromNumeric (toNumeric d) = d`, and after
writing `d` through either setter the getter returns `d`. -/
theorem c7_roundtrip (b : DateAxisBreak) (d : JsDate) :
    dateFromTime d.getTime = d ∧
    (b.setStartDate d).startDate = some d ∧
    (b.setEndDate d).endDate = some d := by
  refine ⟨rfl, ?_, ?_⟩
  · by_cases hch : b.startDateProp = some d
    · simp [DateAxisBreak.setStartDate, setPropertyValueDate, hch,
        DateAxisBreak.startDate]
    · cases hax : b.axis <;>
        simp [DateAxisBreak.setStartDate, setPropertyValueDate, hch, hax,
          DateAxisBreak.startDate]
  · by_cases hch : b.endDateProp = some d
    · simp [DateAxisBreak.setEndDate, setPropertyValueDate, hch,
        DateAxisBreak.endDate]
    · cases hax : b.axis <;>
        simp [DateAxisBreak.setEndDate, setPropertyValueDate, hch, hax,
          DateAxisBreak.endDate]

/-- C10: writing the currently stored date again is a complete no-op —
the break state, numeric bounds and axis included, is unchanged, so no
invalidation is requested even with an axis attached. -/
theorem c10_equal_value_noop (b : DateAxisBreak) (d : JsDate) :
    (b.startDateProp = some d → b.setStartDate d = b) ∧
    (b.endDateProp = some d → b.setEndDate d = b) := by
  constructor
  · intro hch
    simp [DateAxisBreak.setStartDate, setPropertyValueDate, hch]
  · intro hch
    simp [DateAxisBreak.setEndDate, setPropertyValueDate, hch]

/-- Witness for C10 at a concrete attached break: rewriting the stored
start and end dates changes nothing at all. -/
theorem c10_witness :
    exBreakWithAxis.setStartDate ⟨0⟩ = exBreakWithAxis ∧
    exBreakWithAxis.setEndDate ⟨10⟩ = exBreakWithAxis :=
  ⟨(c10_equal_value_noop exBreakWithAxis ⟨0⟩).1 rfl,
   (c10_equal_value_noop exBreakWithAxis ⟨10⟩).2 rfl⟩

/-- C8: for any valid pair `start < end` and breakSize in [0, 1],
`setRange` succeeds; `mapValue` is monotonic across the break, the
compressed span equals `(end - start) * breakSize`, and with
`breakSize = 1` the break has no visual effect at any point. -/
theorem c8_setRange_mapValue (s e bs : ℚ)
    (hse : s < e) (h0 : 0 ≤ bs) (h1 : bs ≤ 1) :
    (∀ b : NumericBreak,
      b.setRange s e = .ok { b with startValue := s, endValue := e }) ∧
    (NumericBreak.mk s e bs).mapValue s ≤ (NumericBreak.mk s e bs).mapValue e ∧
    (NumericBreak.mk s e bs).mapValue e - (NumericBreak.mk s e bs).mapValue s
      = (e - s) * bs ∧
    (bs = 1 → ∀ x : ℚ, (NumericBreak.mk s e bs).mapValue x = x) := by
  have hms : (NumericBreak.mk s e bs).mapValue s = s := by
    unfold NumericBreak.mapValue
    rw [if_neg (lt_irrefl s), if_neg (not_le.2 hse)]
    ring
  have hme : (NumericBreak.mk s e bs).mapValue e = e - (e - s) * (1 - bs) := by
    unfold NumericBreak.mapValue
    rw [if_neg (not_lt.2 hse.le), if_pos (le_refl e)]
  refine ⟨?_, ?_, ?_, ?_⟩
  · intro b
    unfold NumericBreak.setRange
    rw [if_pos hse]
  · rw [hms, hme]
    nlinarith [mul_nonneg (sub_nonneg.2 hse.le) h0]
  · rw [hms, hme]; ring
  · intro hbs x
    subst hbs
    unfold NumericBreak.mapValue
    split_ifs <;> ring

/-- Witness for C8 at concrete inputs: the break [0, 2] with
breakSize 1/2. -/
theorem c8_witness :
    (NumericBreak.mk 9 9 9).setRange 0 2 = .ok (NumericBreak.mk 0 2 9) ∧
    (NumericBreak.mk 0 2 (1/2)).mapValue 0
      ≤ (NumericBreak.mk 0 2 (1/2)).mapValue 2 ∧
    (NumericBreak.mk 0 2 (1/2)).mapValue 2
      - (NumericBreak.mk 0 2 (1/2)).mapValue 0 = (2 - 0) * (1/2) ∧
    (NumericBreak.mk 0 2 1).mapValue 5 = 5 := by
  have h := c8_setRange_mapValue 0 2 (1/2) (by norm_num) (by norm_num)
    (by norm_num)
  have h' := c8_setRange_mapValue 0 2 1 (by norm_num) (by norm_num)
    (by norm_num)
  exact ⟨(h.1 (NumericBreak.mk 9 9 9)), h.2.1, h.2.2.1, h'.2.2.2 rfl 5⟩

/-- C9: adding a break whose `[startValue, endValue)` interval overlaps
a break already in the set fails with `OverlapError` and leaves the set
unchanged; a non-overlapping add succeeds, the result holds exactly the
old breaks plus the new one, and sorted order by `startValue` is
preserved. -/
theorem c9_breakset_add (s : BreakSet) (b : NumericBreak) :
    ((∃ c ∈ s.breaks, breaksOverlap c b = true) →
      s.add b = (some BreakError.overlap, s)) ∧
    ((∀ c ∈ s.breaks, breaksOverlap c b = false) →
      (s.add b).1 = none ∧
      List.Perm ((s.add b).2).breaks (b :: s.breaks) ∧
      (List.Sorted brkLE s.breaks →
        List.Sorted brkLE ((s.add b).2).breaks)) := by
  constructor
  · intro hover
    have hany : s.breaks.any (fun c => breaksOverlap c b) = true :=
      List.any_eq_true.2 hover
    simp [BreakSet.add, hany]
  · intro hall
    have hany : s.breaks.any (fun c => breaksOverlap c b) = false := by
      rw [List.any_eq_false]
      intro c hc
      simp [hall c hc]
    refine ⟨by simp [BreakSet.add, hany], ?_, ?_⟩
    · simp only [BreakSet.add, hany, Bool.false_eq_true, if_false]
      exact List.perm_orderedInsert brkLE b s.breaks
    · intro hsorted
      simp only [BreakSet.add, hany, Bool.false_eq_true, if_false]
      exact List.Sorted.orderedInsert b s.breaks hsorted

/-- Witness for C9 on the concrete set holding [0, 5): an overlapping
add fails leaving the set intact, a disjoint add succeeds into sorted
position. -/
theorem c9_witness :
    exSet.add (NumericBreak.mk 3 8 0) = (some BreakError.overlap, exSet) ∧
    (exSet.add (NumericBreak.mk 10 12 0)).1 = none ∧
    List.Sorted brkLE ((exSet.add (NumericBreak.mk 10 12 0)).2).breaks := by
  have h1 := (c9_breakset_add exSet (NumericBreak.mk 3 8 0)).1
  have h2 := (c9_breakset_add exSet (NumericBreak.mk 10 12 0)).2
  refine ⟨h1 ⟨NumericBreak.mk 0 5 0, by decide, by decide⟩, ?_, ?_⟩
  · exact (h2 (by decide)).1
  · exact (h2 (by decide)).2.2 (by decide)
